import Mathlib

/-!
Shallow embedding of the rust8 CHIP-8 interpreter
(`src/cpu/register.rs`, `src/cpu/memory.rs`, `src/cpu/keypad.rs`,
`src/cpu/cpu.rs`).

Conventions of the embedding:
* Machine integers (`u8`, `u16`, `usize`) are `Nat`; wrap-around is written
  with an explicit `% 2^w` exactly where the Rust operation wraps
  (`wrapping_add`, `wrapping_sub`, `as u8`, shifts on `u8`).
* A Rust abort (out-of-bounds array index, or integer over/underflow that
  aborts a checked build and leads to an out-of-bounds index in an
  unchecked build) is `Option.none`; a normal result is `some`.
* Fixed-size Rust arrays are Lean `List`s (`reg_gp` length 16,
  `stack` length 16, `keys` length 16, `display` 64 columns of 32 cells),
  except the 4096-byte memory, which is a function from addresses to bytes
  with its bound check made explicit at each indexing site.
* `println!` debug output is not modelled (side effect only).
* The SDL renderer, event pump and RNG are external collaborators; the
  random byte consumed by opcode `Cxkk` is passed as an explicit argument.
-/

set_option maxRecDepth 4000

namespace Rust8

def MEM_SIZE : Nat := 4096

def ROM_ADDR : Nat := 0x200

/-- Mirrors `enum JumpType` in `cpu.rs`. -/
inductive JumpType where
  | NORMAL
  | SUBROUTINE
deriving Repr, DecidableEq

/-- Mirrors `struct Registers` in `register.rs`. -/
structure Registers where
  reg_gp : List Nat
  reg_i : Nat
  reg_delay : Nat
  reg_sound : Nat
  reg_pc : Nat
  reg_sp : Nat
  stack : List Nat
  vf_bit : Bool
deriving Repr, DecidableEq

/-- Mirrors `Registers::new`: everything zero except `reg_pc = ROM_ADDR`. -/
def Registers.new : Registers :=
  { reg_gp := List.replicate 16 0
    reg_i := 0
    reg_delay := 0
    reg_sound := 0
    reg_pc := ROM_ADDR
    reg_sp := 0
    stack := List.replicate 16 0
    vf_bit := false }

/-- Mirrors `Registers::write_register`. Every call site in `cpu.rs` passes a
nibble-masked index (< 16), so the `reg_gp[target_reg as usize]` bound check
never fires and is elided here. -/
def Registers.write_register (r : Registers) (target_reg data_value : Nat) : Registers :=
  { r with reg_gp := r.reg_gp.set target_reg data_value }

/-- Mirrors `Registers::write_register_i`. -/
def Registers.write_register_i (r : Registers) (data_value : Nat) : Registers :=
  { r with reg_i := data_value }

/-- Mirrors `Registers::write_delay_timer`. -/
def Registers.write_delay_timer (r : Registers) (data_value : Nat) : Registers :=
  { r with reg_delay := data_value }

/-- Mirrors `Registers::write_sound_timer`. -/
def Registers.write_sound_timer (r : Registers) (data_value : Nat) : Registers :=
  { r with reg_sound := data_value }

/-- Mirrors `Registers::read_register`. -/
def Registers.read_register (r : Registers) (target_reg : Nat) : Nat :=
  r.reg_gp.getD target_reg 0

/-- Mirrors `Registers::read_register_i`. -/
def Registers.read_register_i (r : Registers) : Nat :=
  r.reg_i

/-- Mirrors `Registers::read_delay_timer`. -/
def Registers.read_delay_timer (r : Registers) : Nat :=
  r.reg_delay

/-- Mirrors `Registers::read_sound_timer`. -/
def Registers.read_sound_timer (r : Registers) : Nat :=
  r.reg_sound

/-- Mirrors `Registers::read_pc`. -/
def Registers.read_pc (r : Registers) : Nat :=
  r.reg_pc

/-- Mirrors `Registers::increment_pc` (`self.reg_pc += 2` on `u16`). -/
def Registers.increment_pc (r : Registers) : Registers :=
  { r with reg_pc := (r.reg_pc + 2) % 65536 }

/-- Mirrors `Registers::jump_to_address`.  In `SUBROUTINE` mode the source
indexes `self.stack[self.reg_sp as usize]` into a 16-entry array: an index
of 16 or more aborts, hence `none` there. -/
def Registers.jump_to_address (r : Registers) (addr : Nat) (jump_type : JumpType) :
    Option Registers :=
  match jump_type with
  | JumpType.SUBROUTINE =>
      if r.reg_sp < 16 then
        some { r with
                stack := r.stack.set r.reg_sp r.reg_pc
                reg_sp := r.reg_sp + 1
                reg_pc := addr }
      else none
  | JumpType.NORMAL => some { r with reg_pc := addr }

/-- Mirrors `Registers::return_from_subroutine`
(`self.reg_pc = self.stack[(self.reg_sp - 1) as usize]; self.reg_sp -= 1`).
With `reg_sp = 0` the `u8` subtraction underflows and the run aborts (a
checked build aborts at the subtraction; an unchecked build wraps to 255 and
aborts on the out-of-bounds stack index), hence `none`.  With `reg_sp > 16`
the stack index is out of bounds, hence `none` as well. -/
def Registers.return_from_subroutine (r : Registers) : Option Registers :=
  if 1 ≤ r.reg_sp ∧ r.reg_sp ≤ 16 then
    some { r with
            reg_pc := r.stack.getD (r.reg_sp - 1) 0
            reg_sp := r.reg_sp - 1 }
  else none

/-- Modelled from the spec: `cpu.rs` calls `Registers::set_vf`, which is not
defined in the provided `register.rs`; spec §4.2 defines `set_vf()` as
setting general register 15 (VF) to 1. -/
def Registers.set_vf (r : Registers) : Registers :=
  r.write_register 0x0f 0x01

/-- Modelled from the spec: `cpu.rs` calls `Registers::clear_vf`, which is not
defined in the provided `register.rs`; spec §4.2 defines `clear_vf()` as
clearing general register 15 (VF) to 0. -/
def Registers.clear_vf (r : Registers) : Registers :=
  r.write_register 0x0f 0x00

/-- Updating one cell of the 4096-byte memory array (`mem[addr] = v`). -/
def write_mem (mem : Nat → Nat) (addr v : Nat) : Nat → Nat :=
  fun a => if a = addr then v else mem a

/-- Mirrors `struct Memory` in `memory.rs`.  The `[u8; 4096]` array is
modelled as a function from addresses to bytes; the array's bound check is
made explicit in `read_byte` / `write_byte` / `store_program_loop`, the only
places the source indexes it. -/
structure Memory where
  mem : Nat → Nat

/-- Mirrors `impl Default for Memory` (`[0u8; MEM_SIZE]`). -/
def Memory.default : Memory :=
  { mem := fun _ => 0 }

/-- Mirrors the byte-storing loop of `Memory::store_program_data`: each ROM
byte is written with `self.mem[last_stored_addr] = b` and the address is
incremented.  An address of `MEM_SIZE` or more is an out-of-bounds array
index, which aborts the run, hence `none`. -/
def store_program_loop : (Nat → Nat) → Nat → List Nat → Option (Nat → Nat)
  | mem, _, [] => some mem
  | mem, last_stored_addr, b :: rest =>
      if last_stored_addr < MEM_SIZE then
        store_program_loop (write_mem mem last_stored_addr b) (last_stored_addr + 1) rest
      else none

/-- Mirrors `Memory::store_program_data`: the ROM bytes (here already read
from the file) are stored starting at `ROM_ADDR`. -/
def Memory.store_program_data (m : Memory) (rom : List Nat) : Option Memory :=
  (store_program_loop m.mem ROM_ADDR rom).map Memory.mk

/-- Mirrors `Memory::read_byte` (`self.mem[address as usize]`): an address of
`MEM_SIZE` or more is an out-of-bounds index, which aborts the run. -/
def Memory.read_byte (m : Memory) (address : Nat) : Option Nat :=
  if address < MEM_SIZE then some (m.mem address) else none

/-- Mirrors `Memory::write_byte` (`self.mem[address as usize] = new_byte`). -/
def Memory.write_byte (m : Memory) (address new_byte : Nat) : Option Memory :=
  if address < MEM_SIZE then some { mem := write_mem m.mem address new_byte } else none

/-- Mirrors `struct Keypad` in `keypad.rs`. -/
structure Keypad where
  keys : List Bool
deriving Repr, DecidableEq

/-- Mirrors `impl Default for Keypad` (`[false; 16]`). -/
def Keypad.default : Keypad :=
  { keys := List.replicate 16 false }

/-- The interpreter state of `struct Chip8` in `cpu.rs`, without the SDL
renderer and event pump (external collaborators). -/
structure Chip8 where
  reg : Registers
  mem : Memory
  keys : Keypad
  display : List (List Bool)
  display_updated : Bool

/-- Mirrors the interpreter-state part of `Chip8::new`. -/
def Chip8.new : Chip8 :=
  { reg := Registers.new
    mem := Memory.default
    keys := Keypad.default
    display := List.replicate 64 (List.replicate 32 false)
    display_updated := false }

/-- Reading `self.display[x][y]`; callers guard the bounds. -/
def display_get (display : List (List Bool)) (x y : Nat) : Bool :=
  (display.getD x []).getD y false

/-- Writing `self.display[x][y] = b`; callers guard the bounds. -/
def display_set (display : List (List Bool)) (x y : Nat) (b : Bool) :
    List (List Bool) :=
  display.set x ((display.getD x []).set y b)

/-- Mirrors the body of the inner `for i in 0..8` loop of the `0xd` (DRW)
branch of `Chip8::process_instruction`:

* `x_index = x_value + (7 - i)`, and when that exceeds 63 it is replaced by
  `69 - x_value` (a `usize` subtraction: for `x_value > 69` the run aborts);
* `y_index` is reduced by 32 when above 31 — this mutation of the loop
  variable persists across iterations, so it is threaded through the state;
* the sprite bit is composited: a differing bit sets the cell, an equal bit
  clears it, and clearing a set cell records a collision via `set_vf`;
* an out-of-range `display[x_index][y_index]` access aborts the run. -/
def draw_bit (x_value byte i : Nat) (display : List (List Bool))
    (reg : Registers) (y_index : Nat) :
    Option (List (List Bool) × Registers × Nat) :=
  let x0 := x_value + (7 - i)
  let x_step : Option Nat :=
    if x0 > 63 then
      (if x_value ≤ 69 then some (69 - x_value) else none)
    else some x0
  match x_step with
  | none => none
  | some x_index =>
      let y_index := if y_index > 31 then y_index - 32 else y_index
      if x_index < 64 ∧ y_index < 32 then
        let bit_state : Bool := (byte >>> i) &&& 1 == 1
        let cell := display_get display x_index y_index
        if bit_state != cell then
          some (display_set display x_index y_index true, reg, y_index)
        else
          if cell then
            some (display_set display x_index y_index false, reg.set_vf, y_index)
          else
            some (display_set display x_index y_index false, reg, y_index)
      else none

/-- The `for i in 0..8` loop of the DRW branch, over the listed bit indices
(in source order `[0, 1, ..., 7]`). -/
def draw_row_bits (x_value byte : Nat) :
    List Nat → (List (List Bool) × Registers × Nat) →
    Option (List (List Bool) × Registers × Nat)
  | [], st => some st
  | i :: rest, (d, r, y) =>
      match draw_bit x_value byte i d r y with
      | none => none
      | some st => draw_row_bits x_value byte rest st

/-- The `for byte in bit_vec` loop of the DRW branch: each sprite byte is
composited at the current `y_index`, then `y_index += 1`. -/
def draw_rows (x_value : Nat) :
    List Nat → (List (List Bool) × Registers × Nat) →
    Option (List (List Bool) × Registers × Nat)
  | [], st => some st
  | byte :: rest, (d, r, y) =>
      match draw_row_bits x_value byte (List.range 8) (d, r, y) with
      | none => none
      | some (d, r, y) => draw_rows x_value rest (d, r, y + 1)

/-- Mirrors the sprite fetch of the DRW branch: `for i in 0..num_bytes`,
`bit_vec.push(self.mem.read_byte(self.reg.read_register_i() + i))`. -/
def fetch_sprite (mem : Memory) (reg_i num_bytes : Nat) : Option (List Nat) :=
  (List.range num_bytes).mapM (fun i => mem.read_byte (reg_i + i))

/-- Mirrors the `for n in 0..num_reg` loop of the `Fx55` branch (note: the
source iterates `0..num_reg`, excluding `num_reg` itself). -/
def store_regs_loop (reg : Registers) (mem_addr : Nat) :
    List Nat → Memory → Option Memory
  | [], mem => some mem
  | n :: rest, mem =>
      match mem.write_byte (mem_addr + n) (reg.read_register n) with
      | none => none
      | some mem => store_regs_loop reg mem_addr rest mem

/-- Mirrors the `for n in 0..(register_index + 1)` loop of the `Fx65`
branch. -/
def load_regs_loop (mem : Memory) (mem_addr : Nat) :
    List Nat → Registers → Option Registers
  | [], reg => some reg
  | n :: rest, reg =>
      match mem.read_byte (mem_addr + n) with
      | none => none
      | some byte => load_regs_loop mem mem_addr rest (reg.write_register n byte)

/-- Mirrors `Chip8::process_instruction`.  The decode follows the source's
`match` arms as a chain of equality tests on the same nibble/byte fields.
`rand_num` is the byte produced by `rand::random()` in the `Cxkk` arm.
Arms that abort in the source produce `none`. -/
def Chip8.process_instruction (m : Chip8) (instruction rand_num : Nat) :
    Option Chip8 :=
  let op_type := (instruction >>> 12) &&& 0xff
  if op_type = 0x0 then
    let operation := instruction &&& 0x00ff
    if operation = 0xe0 then
      some { m with
              display := List.replicate 64 (List.replicate 32 false)
              display_updated := true }
    else if operation = 0xee then
      match m.reg.return_from_subroutine with
      | none => none
      | some reg => some { m with reg := reg }
    else some m
  else if op_type = 0x1 then
    let jump_addr := instruction &&& 0x0fff
    match m.reg.jump_to_address jump_addr JumpType.NORMAL with
    | none => none
    | some reg => some { m with reg := reg }
  else if op_type = 0x2 then
    let subroutine_addr := instruction &&& 0x0fff
    match m.reg.jump_to_address subroutine_addr JumpType.SUBROUTINE with
    | none => none
    | some reg => some { m with reg := reg }
  else if op_type = 0x3 then
    let target_reg := (instruction &&& 0x0f00) >>> 8
    let comparison_byte := instruction &&& 0x00ff
    if m.reg.read_register target_reg = comparison_byte then
      some { m with reg := m.reg.increment_pc }
    else some m
  else if op_type = 0x4 then
    let target_reg := (instruction &&& 0x0f00) >>> 8
    let comparison_byte := instruction &&& 0x00ff
    if m.reg.read_register target_reg ≠ comparison_byte then
      some { m with reg := m.reg.increment_pc }
    else some m
  else if op_type = 0x5 then
    let reg_one := (instruction &&& 0x0f00) >>> 8
    let reg_two := (instruction &&& 0x00f0) >>> 4
    if m.reg.read_register reg_one = m.reg.read_register reg_two then
      some { m with reg := m.reg.increment_pc }
    else some m
  else if op_type = 0x6 then
    let target_reg := (instruction >>> 8) &&& 0x0f
    let data_value := instruction &&& 0x00ff
    some { m with reg := m.reg.write_register target_reg data_value }
  else if op_type = 0x7 then
    let target_reg := (instruction >>> 8) &&& 0x0f
    let immediate_value := instruction &&& 0x00ff
    let reg_value := m.reg.read_register target_reg
    let data_value := (immediate_value + reg_value) % 256
    some { m with reg := m.reg.write_register target_reg data_value }
  else if op_type = 0x8 then
    let reg_one := (instruction >>> 8) &&& 0x0f
    let reg_two := (instruction >>> 4) &&& 0x0f
    let operation := instruction &&& 0x000f
    if operation = 0 then
      some { m with reg := m.reg.write_register reg_one (m.reg.read_register reg_two) }
    else if operation = 1 then
      let data_value := m.reg.read_register reg_one ||| m.reg.read_register reg_two
      some { m with reg := m.reg.write_register reg_one data_value }
    else if operation = 2 then
      let data_value := m.reg.read_register reg_one &&& m.reg.read_register reg_two
      some { m with reg := m.reg.write_register reg_one data_value }
    else if operation = 3 then
      let reg_one_value := m.reg.read_register reg_one
      let reg_two_value := m.reg.read_register reg_two
      let reg :=
        if reg_two_value > reg_one_value then m.reg.write_register 0x0f 0x01
        else m.reg
      let data_value := (256 + reg_two_value - reg_one_value) % 256
      some { m with reg := reg.write_register reg_one data_value }
    else if operation = 4 then
      let reg_one_value := m.reg.read_register reg_one
      let reg_two_value := m.reg.read_register reg_two
      let result := reg_one_value + reg_two_value
      let reg := if result > 255 then m.reg.set_vf else m.reg.clear_vf
      some { m with reg := reg.write_register reg_one (result % 256) }
    else if operation = 5 then
      let reg_one_value := m.reg.read_register reg_one
      let reg_two_value := m.reg.read_register reg_two
      let reg :=
        if reg_one_value > reg_two_value then m.reg.set_vf else m.reg.clear_vf
      some { m with reg := reg.write_register reg_one ((256 + reg_one_value - reg_two_value) % 256) }
    else if operation = 6 then
      let reg_one_value := m.reg.read_register reg_one
      let reg := if reg_one_value &&& 1 = 1 then m.reg.set_vf else m.reg.clear_vf
      some { m with reg := reg.write_register reg_one (reg_one_value >>> 1) }
    else if operation = 7 then
      let reg_one_value := m.reg.read_register reg_one
      let reg_two_value := m.reg.read_register reg_two
      let reg :=
        if reg_two_value > reg_one_value then m.reg.set_vf else m.reg.clear_vf
      some { m with reg := reg.write_register reg_one ((256 + reg_two_value - reg_one_value) % 256) }
    else if operation = 0xe then
      let reg_one_value := m.reg.read_register reg_one
      let reg :=
        if (reg_one_value >>> 7) &&& 1 = 1 then m.reg.set_vf else m.reg.clear_vf
      some { m with reg := reg.write_register reg_one ((reg_one_value <<< 1) % 256) }
    else none
  else if op_type = 0x9 then
    let reg_one := (instruction &&& 0x0f00) >>> 8
    let reg_two := (instruction &&& 0x00f0) >>> 4
    if m.reg.read_register reg_one ≠ m.reg.read_register reg_two then
      some { m with reg := m.reg.increment_pc }
    else some m
  else if op_type = 0xa then
    some { m with reg := m.reg.write_register_i (instruction &&& 0x0fff) }
  else if op_type = 0xb then
    let initial_addr := instruction &&& 0x0fff
    let offset := m.reg.read_register 0
    match m.reg.jump_to_address (initial_addr + offset) JumpType.NORMAL with
    | none => none
    | some reg => some { m with reg := reg }
  else if op_type = 0xc then
    let target_reg := (instruction &&& 0x0f00) >>> 8
    let combination_byte := instruction &&& 0x00ff
    some { m with reg := m.reg.write_register target_reg (combination_byte &&& rand_num) }
  else if op_type = 0xd then
    let reg_one := (instruction &&& 0x0F00) >>> 8
    let reg_two := (instruction &&& 0x00F0) >>> 4
    let num_bytes := instruction &&& 0x000F
    let sprite_x := m.reg.read_register reg_one
    let sprite_y := m.reg.read_register reg_two
    match fetch_sprite m.mem m.reg.read_register_i num_bytes with
    | none => none
    | some bit_vec =>
        match draw_rows sprite_x bit_vec (m.display, m.reg.clear_vf, sprite_y) with
        | none => none
        | some (display, reg, _) =>
            some { m with display := display, reg := reg, display_updated := true }
  else if op_type = 0xe then
    let optype := instruction &&& 0x00ff
    let target_reg := (instruction &&& 0x0f00) >>> 8
    if optype = 0x9e then
      let key := m.reg.read_register target_reg
      if key < 16 then
        if m.keys.keys.getD key false then
          some { m with reg := m.reg.increment_pc }
        else some m
      else none
    else if optype = 0xa1 then
      let key := m.reg.read_register target_reg
      if key < 16 then
        if m.keys.keys.getD key false then some m
        else some { m with reg := m.reg.increment_pc }
      else none
    else none
  else if op_type = 0xf then
    let operation := instruction &&& 0x00FF
    let register_index := (instruction &&& 0x0F00) >>> 8
    if operation = 0x07 then
      some { m with reg := m.reg.write_register register_index m.reg.read_delay_timer }
    else if operation = 0x15 then
      some { m with reg := m.reg.write_delay_timer (m.reg.read_register register_index) }
    else if operation = 0x18 then
      some { m with reg := m.reg.write_sound_timer (m.reg.read_register register_index) }
    else if operation = 0x1e then
      let reg_value := m.reg.read_register register_index
      let i_value := m.reg.read_register_i
      some { m with reg := m.reg.write_register_i ((reg_value + i_value) % 65536) }
    else if operation = 0x29 then
      let reg_value := m.reg.read_register register_index
      if reg_value = 0 then some { m with reg := m.reg.write_register_i 0x0 }
      else if reg_value = 1 then some { m with reg := m.reg.write_register_i 0x5 }
      else if reg_value = 2 then some { m with reg := m.reg.write_register_i 0xa }
      else if reg_value = 3 then some { m with reg := m.reg.write_register_i 0xf }
      else if reg_value = 4 then some { m with reg := m.reg.write_register_i 0x14 }
      else if reg_value = 5 then some { m with reg := m.reg.write_register_i 0x19 }
      else if reg_value = 6 then some { m with reg := m.reg.write_register_i 0x1e }
      else if reg_value = 7 then some { m with reg := m.reg.write_register_i 0x23 }
      else if reg_value = 8 then some { m with reg := m.reg.write_register_i 0x28 }
      else if reg_value = 9 then some { m with reg := m.reg.write_register_i 0x2d }
      else if reg_value = 0xa then some { m with reg := m.reg.write_register_i 0x32 }
      else if reg_value = 0xb then some { m with reg := m.reg.write_register_i 0x37 }
      else if reg_value = 0xc then some { m with reg := m.reg.write_register_i 0x3c }
      else if reg_value = 0xd then some { m with reg := m.reg.write_register_i 0x41 }
      else if reg_value = 0xe then some { m with reg := m.reg.write_register_i 0x46 }
      else if reg_value = 0xf then some { m with reg := m.reg.write_register_i 0x4b }
      else none
    else if operation = 0x33 then
      let reg_value := m.reg.read_register register_index
      let ones_digit := reg_value % 10
      let reg_value := reg_value / 10
      let tens_digit := reg_value % 10
      let reg_value := reg_value / 10
      let hundreds_digit := reg_value % 10
      match m.mem.write_byte m.reg.read_register_i hundreds_digit with
      | none => none
      | some mem =>
          match mem.write_byte (m.reg.read_register_i + 1) tens_digit with
          | none => none
          | some mem =>
              match mem.write_byte (m.reg.read_register_i + 2) ones_digit with
              | none => none
              | some mem => some { m with mem := mem }
    else if operation = 0x55 then
      let num_reg := register_index
      let mem_addr := m.reg.read_register_i
      match store_regs_loop m.reg mem_addr (List.range num_reg) m.mem with
      | none => none
      | some mem => some { m with mem := mem }
    else if operation = 0x65 then
      let mem_addr := m.reg.read_register_i
      match load_regs_loop m.mem mem_addr (List.range (register_index + 1)) m.reg with
      | none => none
      | some reg => some { m with reg := reg }
    else none
  else none

/-- Mirrors `Chip8::read_word`: big-endian fetch of two bytes at `PC`,
then `increment_pc`. -/
def Chip8.read_word (m : Chip8) : Option (Nat × Chip8) :=
  match m.mem.read_byte m.reg.read_pc with
  | none => none
  | some hi =>
      match m.mem.read_byte (m.reg.read_pc + 1) with
      | none => none
      | some lo => some ((hi <<< 8) ||| lo, { m with reg := m.reg.increment_pc })

/-- Mirrors `Chip8::cpu_cycle`: fetch then execute. -/
def Chip8.cpu_cycle (m : Chip8) (rand_num : Nat) : Option Chip8 :=
  match m.read_word with
  | none => none
  | some (instruction, m) => m.process_instruction instruction rand_num

/-! ### Helper lemmas -/

theorem getD_set_self (l : List Nat) (i v : Nat) (h : i < l.length) :
    (l.set i v).getD i 0 = v := by
  simp [List.getD_eq_getElem?_getD, List.getElem?_set_self, h]

theorem getD_set_ne (l : List Nat) (i j v : Nat) (h : i ≠ j) :
    (l.set i v).getD j 0 = l.getD j 0 := by
  simp [List.getD_eq_getElem?_getD, List.getElem?_set_ne h]

theorem and_fifteen_lt (a : Nat) : a &&& 0x0f < 16 := by
  have h : (0x0f : Nat) = 2 ^ 4 - 1 := by norm_num
  rw [h, Nat.and_pow_two_sub_one_eq_mod]
  exact Nat.mod_lt _ (by norm_num)

theorem read_write_self (r : Registers) (i v : Nat) (h : i < r.reg_gp.length) :
    (r.write_register i v).read_register i = v := by
  simp only [Registers.read_register, Registers.write_register]
  exact getD_set_self _ _ _ h

theorem read_write_ne (r : Registers) (i j v : Nat) (h : i ≠ j) :
    (r.write_register i v).read_register j = r.read_register j := by
  simp only [Registers.read_register, Registers.write_register]
  exact getD_set_ne _ _ _ _ h

/-- When the address sequence of `store_program_loop` would run past the end
of the 4096-byte memory, the load aborts. -/
theorem store_program_loop_overrun (rom : List Nat) :
    ∀ mem addr, addr ≤ MEM_SIZE → MEM_SIZE < addr + rom.length →
      store_program_loop mem addr rom = none := by
  induction rom with
  | nil =>
      intro mem addr h1 h2
      simp only [List.length_nil, Nat.add_zero] at h2
      omega
  | cons b rest ih =>
      intro mem addr h1 h2
      simp only [store_program_loop]
      split
      · exact ih _ _ (by omega) (by simp only [List.length_cons] at h2; omega)
      · rfl

/-! ### Concrete test states used by the claim theorems -/

/-- State with `V0 = 0x0F`, `V1 = 0xF0` (for the `8xy3` claim). -/
def xor_test_state : Chip8 :=
  { Chip8.new with reg := (Registers.new.write_register 0 0x0F).write_register 1 0xF0 }

/-- State with `V0 = 0xAA`, `V1 = 0xBB`, `I = 0x300` (for the `Fx55` claim). -/
def regdump_test_state : Chip8 :=
  { Chip8.new with
      reg := ((Registers.new.write_register 0 0xAA).write_register 1 0xBB).write_register_i 0x300 }

/-- State with `V0 = 60`, `V1 = 0`, `I = 0x500`, `mem[0x500] = 0xFF`, empty
display (for the DRW wraparound claim). -/
def wrap_test_state : Chip8 :=
  { Chip8.new with
      reg := (Registers.new.write_register 0 60).write_register_i 0x500
      mem := { mem := write_mem (fun _ => 0) 0x500 0xFF } }

/-- State with `V0 = V1 = 0`, `I = 0x500`, `mem[0x500] = 0xFF`, empty display
(for the DRW collision claim). -/
def draw_test_state : Chip8 :=
  { Chip8.new with
      reg := Registers.new.write_register_i 0x500
      mem := { mem := write_mem (fun _ => 0) 0x500 0xFF } }

/-- State with `V15 = 0xFF` (for the `8xy4` claim at `x = y = 0xF`). -/
def addv_test_state : Chip8 :=
  { Chip8.new with reg := Registers.new.write_register 0xF 0xFF }

/-- State with `V0 = 0xFF`, `V1 = 0x02` (the spec's `8xy4` carry example). -/
def carry_test_state : Chip8 :=
  { Chip8.new with reg := (Registers.new.write_register 0 0xFF).write_register 1 0x02 }

/-- State with `V0 = 0xA` (for the `Fx29` claim). -/
def font_test_state : Chip8 :=
  { Chip8.new with reg := Registers.new.write_register 0 0xA }

/-- State with `V0 = 16` (for the key-skip out-of-bounds claim). -/
def keyskip_test_state : Chip8 :=
  { Chip8.new with reg := Registers.new.write_register 0 16 }

/-- Memory image holding `CALL 0x300` at `0x200` and `RET` at `0x300`
(for the CALL/RET round-trip claim). -/
def call_ret_state : Chip8 :=
  { Chip8.new with
      mem := { mem := write_mem (write_mem (fun _ => 0) 0x200 0x23) 0x301 0xEE } }

/-! ### Claim theorems -/

/-- C1: the claim states that opcode `8xy3` sets `Vx` to `Vx ^^^ Vy` with no
other register (including VF) modified.  The code instead computes
`Vy - Vx` and conditionally writes `VF = 1`.  With `V0 = 0x0F`, `V1 = 0xF0`,
executing `0x8013` leaves `V0 = 0xE1` — the subtraction `0xF0 - 0x0F` —
rather than `0x0F ^^^ 0xF0 = 0xFF`, and overwrites `VF` with 1. -/
theorem C1_eval_xor_is_subtraction :
    (xor_test_state.process_instruction 0x8013 0).map
        (fun m => (m.reg.read_register 0, m.reg.read_register 15))
      = some (0xE1, 0x01)
    ∧ (0x0F : Nat) ^^^ 0xF0 = 0xFF := by
  exact ⟨rfl, by decide⟩

/-- C2: the claim states that `Fx55` writes `V0` through `Vx` inclusive
(`x + 1` bytes) to `I .. I + x`.  The source loop runs `for n in 0..x`,
storing only `x` bytes.  With `V0 = 0xAA`, `V1 = 0xBB`, `I = 0x300`,
executing `0xF155` stores `V0` at `0x300` but leaves `0x301` untouched
(still 0), instead of storing `V1 = 0xBB` there. -/
theorem C2_eval_store_off_by_one :
    (regdump_test_state.process_instruction 0xF155 0).map
        (fun m => (m.mem.read_byte 0x300, m.mem.read_byte 0x301))
      = some (some 0xAA, some 0x00)
    ∧ regdump_test_state.reg.read_register 1 = 0xBB := by
  exact ⟨rfl, rfl⟩

/-- C3: the claim states that each sprite bit lands at
`((x0 + bit_offset) mod 64, (y0 + row) mod 32)`, so an 8-bit sprite drawn at
`x = 60` affects columns 60–63 and wraps into columns 0–3.  The source
instead remaps every overflowing column to `69 - x0`: drawing `0xFF` at
`(60, 0)` on an empty display sets columns 60–63, leaves columns 0–3
untouched, funnels all four wrapped bits into column 9 (which ends unset
after an even number of XOR toggles), and falsely reports a collision
(`VF = 1`). -/
theorem C3_eval_wrap_divergence :
    (wrap_test_state.process_instruction 0xD011 0).map (fun m =>
        (display_get m.display 0 0, display_get m.display 1 0,
         display_get m.display 2 0, display_get m.display 3 0,
         display_get m.display 9 0,
         display_get m.display 60 0, display_get m.display 61 0,
         display_get m.display 62 0, display_get m.display 63 0,
         m.reg.read_register 15))
      = some (false, false, false, false, false, true, true, true, true, 1) := by
  exact rfl

/-- C4: executing opcode `00EE` with `SP = 0` underflows the stack pointer
and the run aborts; the stack pointer is never wrapped into a continuing
state.  (The source has no error taxonomy: the abort is the `u8` underflow
of `reg_sp - 1`, respectively the out-of-bounds `stack[255]` index,
modelled as `none`.) -/
theorem C4_ret_underflow_aborts (m : Chip8) (h : m.reg.reg_sp = 0) :
    m.process_instruction 0x00ee 0 = none := by
  simp [Chip8.process_instruction, Registers.return_from_subroutine, h,
    show ((0x00ee : Nat) >>> 12) &&& 0xff = 0 by decide,
    show (0x00ee : Nat) &&& 0x00ff = 0xee by decide]

/-- C4 witness: the freshly constructed machine has `SP = 0`, and `RET`
aborts on it. -/
theorem C4_ret_underflow_aborts_witness :
    Chip8.new.process_instruction 0x00ee 0 = none :=
  C4_ret_underflow_aborts Chip8.new rfl

/-- C5: loading a ROM longer than `4096 - 0x200` bytes aborts the load:
the store loop's address bound is reached before any byte is written out of
range, so the oversized ROM is never silently truncated and memory outside
`[0x200, 4096)` is never silently overwritten. -/
theorem C5_rom_too_long_aborts (m : Memory) (rom : List Nat)
    (h : MEM_SIZE - ROM_ADDR < rom.length) :
    m.store_program_data rom = none := by
  unfold Memory.store_program_data
  rw [store_program_loop_overrun rom m.mem ROM_ADDR (by norm_num [MEM_SIZE, ROM_ADDR])
      (by simp only [MEM_SIZE, ROM_ADDR] at h ⊢; omega)]
  rfl

/-- C5 witness: a 3585-byte ROM (one byte over the `4096 - 0x200` bound)
fails to load. -/
theorem C5_rom_too_long_aborts_witness :
    Memory.default.store_program_data (List.replicate 3585 0) = none :=
  C5_rom_too_long_aborts Memory.default (List.replicate 3585 0)
    (by rw [List.length_replicate]; norm_num [MEM_SIZE, ROM_ADDR])

/-- C8: drawing the all-ones 1-byte sprite at `(0, 0)` on an empty display
sets the row's 8 cells with no collision (`VF = 0`); drawing it again
XOR-clears all 8 cells and reports the collision (`VF = 1`). -/
theorem C8_drw_double_draw :
    (draw_test_state.process_instruction 0xD011 0).map
        (fun m1 => ((List.range 8).map (fun c => display_get m1.display c 0),
                    m1.reg.read_register 0xF))
      = some (List.replicate 8 true, 0)
    ∧ ((draw_test_state.process_instruction 0xD011 0).bind
          (fun m1 => m1.process_instruction 0xD011 0)).map
        (fun m2 => ((List.range 8).map (fun c => display_get m2.display c 0),
                    m2.reg.read_register 0xF))
      = some (List.replicate 8 false, 1) := by
  exact ⟨rfl, rfl⟩

/-- C10: when `Vx` holds a value of 16 or more, the key-skip opcodes `Ex9E`
and `ExA1` index the 16-entry keypad array out of bounds and the run aborts;
no masking or validation of `Vx` happens first. -/
theorem C10_key_skip_oob (m : Chip8) (instruction : Nat)
    (hop : (instruction >>> 12) &&& 0xff = 0xe)
    (hsub : instruction &&& 0x00ff = 0x9e ∨ instruction &&& 0x00ff = 0xa1)
    (hkey : 16 ≤ m.reg.read_register ((instruction &&& 0x0f00) >>> 8)) :
    m.process_instruction instruction 0 = none := by
  rcases hsub with hsub | hsub <;>
    simp [Chip8.process_instruction, hop, hsub, Nat.not_lt.mpr hkey]

/-- C10 witness: with `V0 = 16`, opcode `0xE09E` aborts. -/
theorem C10_key_skip_oob_witness :
    keyskip_test_state.process_instruction 0xE09E 0 = none :=
  C10_key_skip_oob keyskip_test_state 0xE09E (by decide) (Or.inl (by decide))
    (by decide)

/-- C7 counterexample: the claim quantifies over every register pair,
including `x = 15`.  For `x = y = 0xF` with `V15 = 0xFF` the sum `0x1FE`
exceeds 255, so the claim requires `VF = 1`; but the code writes the flag
first and the truncated sum second, so `VF` (which is `Vx` here) ends up
holding `0xFE ≠ 1`. -/
theorem C7_vf_flag_overwritten :
    255 < addv_test_state.reg.read_register 0xF + addv_test_state.reg.read_register 0xF
    ∧ (addv_test_state.process_instruction 0x8FF4 0).map (fun m => m.reg.read_register 0xF)
        = some 0xFE
    ∧ (0xFE : Nat) ≠ 0x01 := by
  exact ⟨by decide, rfl, by decide⟩

/-- C7 amended: executing `8xy4` stores `(Vx + Vy) mod 256` into `Vx`, and
for `x ≠ 15` it also leaves `VF = 1` exactly when the 16-bit-wide sum
exceeded 255 (for `x = 15` the stored sum overwrites the flag, since the
code writes the flag before the result). -/
theorem C7_add_carry_amended (m : Chip8) (instruction : Nat)
    (hlen : m.reg.reg_gp.length = 16)
    (hop : (instruction >>> 12) &&& 0xff = 0x8)
    (hsub : instruction &&& 0x000f = 4) :
    ∃ m1, m.process_instruction instruction 0 = some m1
      ∧ m1.reg.read_register ((instruction >>> 8) &&& 0x0f)
          = (m.reg.read_register ((instruction >>> 8) &&& 0x0f)
              + m.reg.read_register ((instruction >>> 4) &&& 0x0f)) % 256
      ∧ ((instruction >>> 8) &&& 0x0f ≠ 0xF →
          m1.reg.read_register 0xF
            = if 255 < m.reg.read_register ((instruction >>> 8) &&& 0x0f)
                    + m.reg.read_register ((instruction >>> 4) &&& 0x0f)
              then 1 else 0) := by
  have hxlt : (instruction >>> 8) &&& 0x0f < 16 := and_fifteen_lt _
  have hstep : m.process_instruction instruction 0 = some { m with reg := Registers.write_register (if 255 < m.reg.read_register ((instruction >>> 8) &&& 0x0f) + m.reg.read_register ((instruction >>> 4) &&& 0x0f) then m.reg.set_vf else m.reg.clear_vf) ((instruction >>> 8) &&& 0x0f) ((m.reg.read_register ((instruction >>> 8) &&& 0x0f) + m.reg.read_register ((instruction >>> 4) &&& 0x0f)) % 256) } := by
    simp [Chip8.process_instruction, hop, hsub]
  refine ⟨_, hstep, ?_, ?_⟩
  · refine read_write_self _ _ _ ?_
    split <;>
      simp [Registers.set_vf, Registers.clear_vf, Registers.write_register, hlen, hxlt]
  · intro hne
    rw [read_write_ne _ _ _ _ hne]
    split
    · simp only [Registers.set_vf]
      exact read_write_self _ _ _ (by rw [hlen]; norm_num)
    · simp only [Registers.clear_vf]
      exact read_write_self _ _ _ (by rw [hlen]; norm_num)

/-- C7 amended witness: the spec's own first example, `V0 = 0xFF`,
`V1 = 0x02`, `ADD V0, V1` — the sum 0x101 carries, so `V0 = 0x01` and
`VF = 1`. -/
theorem C7_add_carry_amended_witness :
    ∃ m1, carry_test_state.process_instruction 0x8014 0 = some m1
      ∧ m1.reg.read_register ((0x8014 >>> 8) &&& 0x0f)
          = (carry_test_state.reg.read_register ((0x8014 >>> 8) &&& 0x0f)
              + carry_test_state.reg.read_register ((0x8014 >>> 4) &&& 0x0f)) % 256
      ∧ ((0x8014 >>> 8) &&& 0x0f ≠ 0xF →
          m1.reg.read_register 0xF
            = if 255 < carry_test_state.reg.read_register ((0x8014 >>> 8) &&& 0x0f)
                    + carry_test_state.reg.read_register ((0x8014 >>> 4) &&& 0x0f)
              then 1 else 0) :=
  C7_add_carry_amended carry_test_state 0x8014 (by decide) (by decide) (by decide)

/-- C9: when `Vx` holds a digit below 16, opcode `Fx29` sets the index
register to the font sprite address `5 * Vx`. -/
theorem C9_font_address (m : Chip8) (instruction : Nat)
    (hop : (instruction >>> 12) &&& 0xff = 0xf)
    (hsub : instruction &&& 0x00FF = 0x29)
    (hv : m.reg.read_register ((instruction &&& 0x0F00) >>> 8) < 16) :
    ∃ m1, m.process_instruction instruction 0 = some m1
      ∧ m1.reg.read_register_i
          = 5 * m.reg.read_register ((instruction &&& 0x0F00) >>> 8) := by
  have hstep : ∀ k : Nat, k < 16 →
      m.reg.read_register ((instruction &&& 0x0F00) >>> 8) = k →
      m.process_instruction instruction 0
        = some { m with reg := m.reg.write_register_i (5 * k) } := by
    intro k hk hkv
    interval_cases k <;> simp [Chip8.process_instruction, hop, hsub, hkv]
  exact ⟨_, hstep _ hv rfl, by simp [Registers.read_register_i, Registers.write_register_i]⟩

/-- C9 witness: digit `0xA` in `V0` resolves the font address
`I = 0x32 = 5 * 10`. -/
theorem C9_font_address_witness :
    ∃ m1, font_test_state.process_instruction 0xF029 0 = some m1
      ∧ m1.reg.read_register_i
          = 5 * font_test_state.reg.read_register ((0xF029 &&& 0x0F00) >>> 8) :=
  C9_font_address font_test_state 0xF029 (by decide) (by decide) (by decide)

/-- C6: with `SP < 16`, fetching `CALL nnn` (opcode `2nnn`) at address `p`
pushes the post-fetch program counter `p + 2`, increments `SP`, and sets
`PC = nnn`; fetching the `RET` (`00EE`) found at `nnn` then restores
`PC = p + 2` and the original `SP`. -/
theorem C6_call_ret_round_trip (m : Chip8) (p nnn : Nat)
    (hpc : m.reg.reg_pc = p)
    (hp : p + 1 < 4096)
    (hsp : m.reg.reg_sp < 16)
    (hstack : m.reg.stack.length = 16)
    (hnnn : nnn + 1 < 4096)
    (hcall : (m.mem.mem p) <<< 8 ||| m.mem.mem (p + 1) = 0x2000 + nnn)
    (hret : (m.mem.mem nnn) <<< 8 ||| m.mem.mem (nnn + 1) = 0x00ee) :
    ∃ m1 m2,
      m.cpu_cycle 0 = some m1
      ∧ m1.reg.reg_pc = nnn
      ∧ m1.reg.reg_sp = m.reg.reg_sp + 1
      ∧ m1.reg.stack.getD m.reg.reg_sp 0 = p + 2
      ∧ m1.cpu_cycle 0 = some m2
      ∧ m2.reg.reg_pc = p + 2
      ∧ m2.reg.reg_sp = m.reg.reg_sp := by
  have hpow : (2 : Nat) ^ 12 = 4096 := by norm_num
  have hP1 : p < MEM_SIZE := by simp only [MEM_SIZE]; omega
  have hP2 : p + 1 < MEM_SIZE := by simp only [MEM_SIZE]; omega
  have hN1 : nnn < MEM_SIZE := by simp only [MEM_SIZE]; omega
  have hN2 : nnn + 1 < MEM_SIZE := by simp only [MEM_SIZE]; omega
  have hmodp : (p + 2) % 65536 = p + 2 := Nat.mod_eq_of_lt (by omega)
  have hop2 : ((0x2000 + nnn) >>> 12) &&& 0xff = 0x2 := by
    have h1 : (0x2000 + nnn) >>> 12 = 2 := by
      rw [Nat.shiftRight_eq_div_pow, hpow]; omega
    rw [h1]; decide
  have hmask : (0x2000 + nnn) &&& 0x0fff = nnn := by
    have h1 : (0x0fff : Nat) = 2 ^ 12 - 1 := by norm_num
    rw [h1, Nat.and_pow_two_sub_one_eq_mod, hpow]
    omega
  have hfetch1 : m.read_word = some (0x2000 + nnn, { m with reg := m.reg.increment_pc }) := by
    simp only [Chip8.read_word, Memory.read_byte, Registers.read_pc, hpc,
      if_pos hP1, if_pos hP2]
    rw [hcall]
  have hgetD : (m.reg.stack.set m.reg.reg_sp (p + 2)).getD m.reg.reg_sp 0 = p + 2 :=
    getD_set_self _ _ _ (by rw [hstack]; exact hsp)
  have hcycle1 : m.cpu_cycle 0 = some { m with reg := { m.reg with stack := m.reg.stack.set m.reg.reg_sp (p + 2), reg_sp := m.reg.reg_sp + 1, reg_pc := nnn } } := by
    unfold Chip8.cpu_cycle
    rw [hfetch1]
    simp [Chip8.process_instruction, hop2, hmask, Registers.jump_to_address,
      Registers.increment_pc, hpc, hmodp, hsp]
  have hfetch2 : ({ m with reg := { m.reg with stack := m.reg.stack.set m.reg.reg_sp (p + 2), reg_sp := m.reg.reg_sp + 1, reg_pc := nnn } } : Chip8).read_word = some (0x00ee, { m with reg := { m.reg with stack := m.reg.stack.set m.reg.reg_sp (p + 2), reg_sp := m.reg.reg_sp + 1, reg_pc := (nnn + 2) % 65536 } }) := by
    simp only [Chip8.read_word, Memory.read_byte, Registers.read_pc,
      Registers.increment_pc, if_pos hN1, if_pos hN2]
    rw [hret]
  have hcycle2 : ({ m with reg := { m.reg with stack := m.reg.stack.set m.reg.reg_sp (p + 2), reg_sp := m.reg.reg_sp + 1, reg_pc := nnn } } : Chip8).cpu_cycle 0 = some { m with reg := { m.reg with stack := m.reg.stack.set m.reg.reg_sp (p + 2), reg_sp := m.reg.reg_sp, reg_pc := p + 2 } } := by
    unfold Chip8.cpu_cycle
    rw [hfetch2]
    simp [Chip8.process_instruction, Registers.return_from_subroutine,
      show ((0x00ee : Nat) >>> 12) &&& 0xff = 0 by decide,
      show (0x00ee : Nat) &&& 0x00ff = 0xee by decide, hgetD]
    have hgetD2 : (m.reg.stack.set m.reg.reg_sp (p + 2))[m.reg.reg_sp]?.getD 0 = p + 2 := by
      simpa using hgetD
    rw [if_pos (show m.reg.reg_sp ≤ 15 by omega), hgetD2]
  exact ⟨_, _, hcycle1, rfl, rfl, hgetD, hcycle2, rfl, rfl⟩

/-- C6 witness: `CALL 0x300` fetched at `PC = 0x200` (the ROM entry point)
jumps to `0x300` having pushed `0x202`; the `RET` at `0x300` restores
`PC = 0x202` and `SP = 0`. -/
theorem C6_call_ret_round_trip_witness :
    ∃ m1 m2,
      call_ret_state.cpu_cycle 0 = some m1
      ∧ m1.reg.reg_pc = 0x300
      ∧ m1.reg.reg_sp = call_ret_state.reg.reg_sp + 1
      ∧ m1.reg.stack.getD call_ret_state.reg.reg_sp 0 = 0x200 + 2
      ∧ m1.cpu_cycle 0 = some m2
      ∧ m2.reg.reg_pc = 0x200 + 2
      ∧ m2.reg.reg_sp = call_ret_state.reg.reg_sp :=
  C6_call_ret_round_trip call_ret_state 0x200 0x300 rfl (by decide) (by decide)
    (by decide) (by decide) (by decide) (by decide)

end Rust8
